import Mathlib

/-!
Verification development for the aws-github-login repository.

The definitions below are shallow embeddings of the TypeScript/JavaScript
source files:
 - sessionManager (storeSession / getSession / isSessionValid /
   retrievePKCEVerifier / retrieveOAuthState),
 - oauth2Service (handleCallback and its helpers),
 - oidcDiscovery (discoverOIDCEndpoints and its cache),
 - pkceUtils (generateCodeChallenge, i.e. SHA-256 then base64url),
 - awsService (generateSessionName, assumeRoleWithWebIdentity),
 - roleArnStorage (addRoleArn, importHistory).

localStorage is modelled as explicit state records; every network call is
modelled by an oracle value (an Except) describing the outcome the fetch
would have produced, together with counters recording how many calls were
issued.  JavaScript truthiness on optional strings (undefined or "" is
falsy) is modelled explicitly.
-/

namespace AwsGithubLogin

/-- JS truthiness for an optional string: undefined and "" are falsy. -/
def truthy : Option String → Bool
  | none => false
  | some s => s ≠ ""

/-- UserInfo claims record (types/auth.ts).  All claim fields the core reads
are optional here because the code accesses them defensively. -/
structure UserInfo where
  sub : Option String := none
  login : Option String := none
  preferred_username : Option String := none
  email : Option String := none
  name : Option String := none
  authenticated : Option Bool := none
  error : Option String := none
deriving Repr, DecidableEq

/-- AuthSession as persisted by the session manager (types/auth.ts). -/
structure AuthSession where
  accessToken : String
  tokenType : String
  scope : String
  expiresAt : Nat
  createdAt : Nat
  user : UserInfo
  refreshToken : Option String := none
  idToken : Option String := none
deriving Repr, DecidableEq

/-- The localStorage slots used by sessionManager
(auth-session, pkce-verifier, oauth-state). -/
structure Store where
  session : Option AuthSession := none
  pkceVerifier : Option String := none
  oauthState : Option String := none
deriving Repr, DecidableEq

/-- sessionManager.storeSession: rejects a session without access token,
fills createdAt with Date.now() when falsy (0). -/
def storeSession (now : Nat) (sess : AuthSession) (s : Store) :
    Except String Store :=
  if sess.accessToken = "" then
    Except.error "Session storage failed: Invalid session: access token is required"
  else
    let stamped := { sess with createdAt := if sess.createdAt = 0 then now else sess.createdAt }
    Except.ok { s with session := some stamped }

/-- sessionManager.getSession: schema check (accessToken and expiresAt
truthy); violation purges the stored session and yields none. -/
def getSession (s : Store) : Option AuthSession × Store :=
  match s.session with
  | none => (none, s)
  | some sess =>
    if sess.accessToken = "" ∨ sess.expiresAt = 0 then
      (none, { s with session := none })
    else
      (some sess, s)

/-- sessionManager.isSessionValid: session present and now < expiresAt;
an expired session is purged as a side effect. -/
def isSessionValid (now : Nat) (s : Store) : Bool × Store :=
  match getSession s with
  | (none, s1) => (false, s1)
  | (some sess, s1) =>
    if sess.expiresAt ≤ now then (false, { s1 with session := none })
    else (true, s1)

/-- sessionManager.retrievePKCEVerifier: returns the stored value and
removes it when truthy (localStorage getItem + conditional removeItem). -/
def retrievePKCEVerifier (s : Store) : Option String × Store :=
  match s.pkceVerifier with
  | none => (none, s)
  | some v => if v = "" then (some v, s) else (some v, { s with pkceVerifier := none })

/-- sessionManager.retrieveOAuthState: returns the stored value and
removes it when truthy. -/
def retrieveOAuthState (s : Store) : Option String × Store :=
  match s.oauthState with
  | none => (none, s)
  | some v => if v = "" then (some v, s) else (some v, { s with oauthState := none })

/-- Token endpoint JSON response (types/auth.ts TokenResponse). -/
structure TokenResponse where
  access_token : Option String := none
  token_type : Option String := none
  expires_in : Option Nat := none
  refresh_token : Option String := none
  id_token : Option String := none
  scope : Option String := none
  error : Option String := none
  error_description : Option String := none
deriving Repr, DecidableEq

/-- Environment of one handleCallback run: the clock, the configured scope,
the discovered userinfo endpoint, and the outcome each network fetch would
produce if issued. -/
structure CallbackEnv where
  now : Nat
  svcScope : String
  userinfoEndpoint : Option String := none
  tokenFetch : Except String TokenResponse
  userinfoFetch : Except String UserInfo := Except.error "unreachable"
deriving Repr

/-- oauth2Service.exchangeCodeForTokens: outcome of the token POST, then
the error-field and access_token checks. -/
def exchangeCodeForTokens (env : CallbackEnv) : Except String TokenResponse :=
  match env.tokenFetch with
  | Except.error e => Except.error e
  | Except.ok td =>
    if truthy td.error then Except.error "Token error"
    else if truthy td.access_token = false then Except.error "No access token received"
    else Except.ok td

/-- oauth2Service.fetchUserInfo: missing endpoint or a failed fetch both
degrade to a minimal user record; the Nat counts userinfo fetches issued. -/
def fetchUserInfo (env : CallbackEnv) : UserInfo × Nat :=
  if truthy env.userinfoEndpoint = false then
    ({ sub := some "unknown", authenticated := some true }, 0)
  else
    match env.userinfoFetch with
    | Except.ok u => (u, 1)
    | Except.error e => ({ sub := some "unknown", authenticated := some true, error := some e }, 1)

/-- The catch-block cleanup in handleCallback: retrievePKCEVerifier();
retrieveOAuthState(); discarding the values. -/
def cleanupAuthArtifacts (s : Store) : Store :=
  (retrieveOAuthState (retrievePKCEVerifier s).2).2

/-- Result of one handleCallback run: outcome, final store, and how many
token-endpoint and userinfo fetches were issued. -/
structure CallbackResult where
  result : Except String (UserInfo × AuthSession)
  store : Store
  tokenCalls : Nat
  userinfoCalls : Nat
deriving Repr

/-- JS expression tokenResponse.expires_in || 3600 (NB: ||, so 0 also
falls back to the default). -/
def expiresInOrDefault (o : Option Nat) : Nat :=
  match o with
  | some n => if n = 0 then 3600 else n
  | none => 3600

/-- JS expression opt || dflt on strings. -/
def strOrDefault (o : Option String) (dflt : String) : String :=
  if truthy o then o.getD "" else dflt

/-- oauth2Service.handleCallback, following the source control flow:
state check, verifier retrieval, token exchange, userinfo fetch, session
construction and storage; any thrown error runs the catch-block cleanup. -/
def handleCallback (env : CallbackEnv) (state : String) (s : Store) :
    CallbackResult :=
  let (storedState, s1) := retrieveOAuthState s
  if truthy storedState = false ∨ storedState ≠ some state then
    { result := Except.error "Invalid state parameter - possible CSRF attack"
      store := cleanupAuthArtifacts s1, tokenCalls := 0, userinfoCalls := 0 }
  else
    let (cv, s2) := retrievePKCEVerifier s1
    if truthy cv = false then
      { result := Except.error "PKCE code verifier not found"
        store := cleanupAuthArtifacts s2, tokenCalls := 0, userinfoCalls := 0 }
    else
      match exchangeCodeForTokens env with
      | Except.error e =>
        { result := Except.error e, store := cleanupAuthArtifacts s2
          tokenCalls := 1, userinfoCalls := 0 }
      | Except.ok td =>
        let (userInfo, uc) := fetchUserInfo env
        let expiresIn := expiresInOrDefault td.expires_in
        let sess : AuthSession :=
          { accessToken := td.access_token.getD ""
            tokenType := strOrDefault td.token_type "Bearer"
            scope := strOrDefault td.scope env.svcScope
            expiresAt := env.now + expiresIn * 1000
            createdAt := env.now
            user := userInfo
            refreshToken := if truthy td.refresh_token then td.refresh_token else none
            idToken := if truthy td.id_token then td.id_token else none }
        match storeSession env.now sess s2 with
        | Except.error e =>
          { result := Except.error e, store := cleanupAuthArtifacts s2
            tokenCalls := 1, userinfoCalls := uc }
        | Except.ok s3 =>
          { result := Except.ok (userInfo, sess), store := s3
            tokenCalls := 1, userinfoCalls := uc }

@[simp]
theorem truthy_none : truthy none = false := rfl

@[simp]
theorem truthy_some (s : String) : truthy (some s) = decide (s ≠ "") := rfl

theorem retrievePKCEVerifier_snd (s : Store) :
    (retrievePKCEVerifier s).2 =
      if s.pkceVerifier = some "" then s else { s with pkceVerifier := none } := by
  rcases s with ⟨se, pv, os⟩
  rcases pv with _ | v
  · simp [retrievePKCEVerifier]
  · by_cases h : v = "" <;> simp [retrievePKCEVerifier, h]

theorem retrieveOAuthState_snd (s : Store) :
    (retrieveOAuthState s).2 =
      if s.oauthState = some "" then s else { s with oauthState := none } := by
  rcases s with ⟨se, pv, os⟩
  rcases os with _ | v
  · simp [retrieveOAuthState]
  · by_cases h : v = "" <;> simp [retrieveOAuthState, h]

theorem retrievePKCEVerifier_fst (s : Store) :
    (retrievePKCEVerifier s).1 = s.pkceVerifier := by
  rcases s with ⟨se, pv, os⟩
  rcases pv with _ | v
  · simp [retrievePKCEVerifier]
  · by_cases h : v = "" <;> simp [retrievePKCEVerifier, h]

theorem retrieveOAuthState_fst (s : Store) :
    (retrieveOAuthState s).1 = s.oauthState := by
  rcases s with ⟨se, pv, os⟩
  rcases os with _ | v
  · simp [retrieveOAuthState]
  · by_cases h : v = "" <;> simp [retrieveOAuthState, h]

theorem cleanupAuthArtifacts_spec (s : Store)
    (hv : s.pkceVerifier ≠ some "") (hs : s.oauthState ≠ some "") :
    cleanupAuthArtifacts s = { s with pkceVerifier := none, oauthState := none } := by
  rcases s with ⟨se, pv, os⟩
  simp only [cleanupAuthArtifacts, retrievePKCEVerifier_snd]
  rw [if_neg hv, retrieveOAuthState_snd]
  simp only at hs ⊢
  rw [if_neg hs]

/-- Helper: with no stored OAuth state, handleCallback always fails the
CSRF check without any token-endpoint call. -/
theorem handleCallback_noStoredState (env : CallbackEnv) (state : String) (s : Store)
    (h : s.oauthState = none) :
    (handleCallback env state s).result =
        Except.error "Invalid state parameter - possible CSRF attack" ∧
      (handleCallback env state s).tokenCalls = 0 := by
  rcases s with ⟨se, pv, os⟩
  simp only at h
  subst h
  simp [handleCallback, retrieveOAuthState]

/-- Helper: whenever the stored state is absent or differs from the
supplied state, handleCallback rejects with the CSRF error and issues no
token-endpoint call. -/
theorem handleCallback_mismatch (env : CallbackEnv) (state : String) (s : Store)
    (h : s.oauthState = none ∨ s.oauthState ≠ some state) :
    (handleCallback env state s).result =
        Except.error "Invalid state parameter - possible CSRF attack" ∧
      (handleCallback env state s).tokenCalls = 0 := by
  rcases s with ⟨se, pv, os⟩
  rcases os with _ | w
  · exact handleCallback_noStoredState env state ⟨se, pv, none⟩ rfl
  · by_cases hw : w = ""
    · subst hw
      simp [handleCallback, retrieveOAuthState]
    · have hws : w ≠ state := by
        rcases h with h | h
        · simp at h
        · intro hE
          exact h (by simp [hE])
      simp [handleCallback, retrieveOAuthState, hw, hws]

/-- Helper: after any handleCallback run on a store whose verifier/state
slots were written through the sessionManager API (hence never the empty
string), both slots end up cleared. -/
theorem handleCallback_slots_cleared (env : CallbackEnv) (state : String) (s : Store)
    (hv : s.pkceVerifier ≠ some "") (hs : s.oauthState ≠ some "") :
    (handleCallback env state s).store.pkceVerifier = none ∧
    (handleCallback env state s).store.oauthState = none := by
  rcases s with ⟨se, pv, os⟩
  simp only [] at hv hs
  rcases os with _ | w
  · rcases pv with _ | v
    · simp [handleCallback, retrieveOAuthState, cleanupAuthArtifacts, retrievePKCEVerifier]
    · have hv' : v ≠ "" := by simpa using hv
      simp [handleCallback, retrieveOAuthState, cleanupAuthArtifacts, retrievePKCEVerifier,
        hv']
  · have hw : w ≠ "" := by simpa using hs
    by_cases hws : w = state
    · subst hws
      rcases pv with _ | v
      · simp [handleCallback, retrieveOAuthState, cleanupAuthArtifacts, retrievePKCEVerifier,
          hw]
      · have hv' : v ≠ "" := by simpa using hv
        rcases henv : exchangeCodeForTokens env with e | td
        · simp [handleCallback, retrieveOAuthState, retrievePKCEVerifier, cleanupAuthArtifacts,
            hw, hv', henv]
        · rcases hfu : fetchUserInfo env with ⟨u, uc⟩
          by_cases hat : td.access_token.getD "" = ""
          · simp [handleCallback, retrieveOAuthState, retrievePKCEVerifier, cleanupAuthArtifacts,
              storeSession, hw, hv', henv, hfu, hat]
          · simp [handleCallback, retrieveOAuthState, retrievePKCEVerifier, cleanupAuthArtifacts,
              storeSession, hw, hv', henv, hfu, hat]
    · rcases pv with _ | v
      · simp [handleCallback, retrieveOAuthState, cleanupAuthArtifacts, retrievePKCEVerifier,
          hw, hws]
      · have hv' : v ≠ "" := by simpa using hv
        simp [handleCallback, retrieveOAuthState, cleanupAuthArtifacts, retrievePKCEVerifier,
          hw, hws, hv']

/-- C1: for every supplied state, handleCallback rejects with the CSRF
error when the supplied state differs from the stored one (or none is
stored), issuing no token-endpoint call in that case; in both outcomes the
stored PKCE verifier and OAuth state are cleared, so any subsequent
handleCallback call fails the CSRF check without a token-endpoint call.
(The stored slots are written through storePKCEVerifier/storeOAuthState,
which reject empty strings, hence the two hypotheses.) -/
theorem handleCallback_csrf_and_purge (env : CallbackEnv) (state : String) (s : Store)
    (hv : s.pkceVerifier ≠ some "") (hs : s.oauthState ≠ some "") :
    ((s.oauthState = none ∨ s.oauthState ≠ some state) →
        (handleCallback env state s).result =
          Except.error "Invalid state parameter - possible CSRF attack" ∧
        (handleCallback env state s).tokenCalls = 0) ∧
    (handleCallback env state s).store.pkceVerifier = none ∧
    (handleCallback env state s).store.oauthState = none ∧
    ∀ env2 state2,
      (handleCallback env2 state2 (handleCallback env state s).store).result =
          Except.error "Invalid state parameter - possible CSRF attack" ∧
      (handleCallback env2 state2 (handleCallback env state s).store).tokenCalls = 0 := by
  obtain ⟨h1, h2⟩ := handleCallback_slots_cleared env state s hv hs
  refine ⟨fun h => handleCallback_mismatch env state s h, h1, h2, fun env2 state2 => ?_⟩
  exact handleCallback_mismatch env2 state2 _ (Or.inl h2)

/-- Witness for C1 at a concrete mismatching input. -/
theorem handleCallback_csrf_and_purge_witness :
    (Store.pkceVerifier { session := none, pkceVerifier := some "v", oauthState := some "T" }
        ≠ some "") ∧
    (({ session := none, pkceVerifier := some "v", oauthState := some "T" } : Store).oauthState
        ≠ some "") ∧
    ((handleCallback
        { now := 0, svcScope := "sc", userinfoEndpoint := none,
          tokenFetch := Except.ok { access_token := some "at" } } "S"
        { session := none, pkceVerifier := some "v", oauthState := some "T" }).result =
      Except.error "Invalid state parameter - possible CSRF attack") := by
  refine ⟨by decide, by decide, ?_⟩
  exact ((handleCallback_csrf_and_purge
    { now := 0, svcScope := "sc", userinfoEndpoint := none,
      tokenFetch := Except.ok { access_token := some "at" } } "S"
    { session := none, pkceVerifier := some "v", oauthState := some "T" }
    (by decide) (by decide)).1 (Or.inr (by decide))).1

/-- Bool-valued success test on Except. -/
def exceptIsOk {ε α : Type} : Except ε α → Bool
  | Except.ok _ => true
  | Except.error _ => false

/-- The session object a successful handleCallback run builds and stores. -/
def successSession (env : CallbackEnv) (td : TokenResponse) : AuthSession :=
  { accessToken := td.access_token.getD ""
    tokenType := strOrDefault td.token_type "Bearer"
    scope := strOrDefault td.scope env.svcScope
    expiresAt := env.now + expiresInOrDefault td.expires_in * 1000
    createdAt := env.now
    user := (fetchUserInfo env).1
    refreshToken := if truthy td.refresh_token then td.refresh_token else none
    idToken := if truthy td.id_token then td.id_token else none }

/-- Helper: on the hot path (matching state, verifier present, token
exchange succeeding) handleCallback returns and persists successSession. -/
theorem handleCallback_success (env : CallbackEnv) (state : String) (s : Store)
    (v : String) (td : TokenResponse)
    (h1 : s.oauthState = some state) (h2 : state ≠ "")
    (h3 : s.pkceVerifier = some v) (h4 : v ≠ "")
    (h5 : env.tokenFetch = Except.ok td)
    (h6 : truthy td.error = false) (h7 : truthy td.access_token = true) :
    handleCallback env state s =
      { result := Except.ok ((fetchUserInfo env).1, successSession env td)
        store := { session := some (successSession env td)
                   pkceVerifier := none, oauthState := none }
        tokenCalls := 1, userinfoCalls := (fetchUserInfo env).2 } := by
  rcases s with ⟨se, pv, os⟩
  simp only [] at h1 h3
  subst h1; subst h3
  rcases hta : td.access_token with _ | a
  · rw [hta] at h7; simp at h7
  have ha : a ≠ "" := by
    rw [hta] at h7; simpa using h7
  rcases hfu : fetchUserInfo env with ⟨u, uc⟩
  simp [handleCallback, retrieveOAuthState, retrievePKCEVerifier, exchangeCodeForTokens,
    storeSession, successSession, h2, h4, h5, h6, h7, hta, hfu, ha]

/-- C2: a session created by a successful handleCallback at time T with
expires_in = 3600 has expiresAt = T + 3600000; isSessionValid is true at
T+3599999, false at T+3600001 with the stored session purged, and in
general the session is valid iff now < expiresAt. -/
theorem session_expiry_boundaries (env : CallbackEnv) (state : String) (s : Store)
    (v : String) (td : TokenResponse) (n : Nat)
    (h1 : s.oauthState = some state) (h2 : state ≠ "")
    (h3 : s.pkceVerifier = some v) (h4 : v ≠ "")
    (h5 : env.tokenFetch = Except.ok td)
    (h6 : truthy td.error = false) (h7 : truthy td.access_token = true)
    (h8 : td.expires_in = some 3600) :
    ((handleCallback env state s).store.session.map AuthSession.expiresAt
        = some (env.now + 3600000)) ∧
    (isSessionValid (env.now + 3599999) (handleCallback env state s).store).1 = true ∧
    (isSessionValid (env.now + 3600001) (handleCallback env state s).store).1 = false ∧
    (isSessionValid (env.now + 3600001) (handleCallback env state s).store).2.session = none ∧
    ((isSessionValid n (handleCallback env state s).store).1 = true
        ↔ n < env.now + 3600000) := by
  rw [handleCallback_success env state s v td h1 h2 h3 h4 h5 h6 h7]
  rcases hta : td.access_token with _ | a
  · rw [hta] at h7; simp at h7
  have ha : a ≠ "" := by
    rw [hta] at h7; simpa using h7
  have hne : env.now + 3600000 ≠ 0 := by omega
  have hexp : (successSession env td).expiresAt = env.now + 3600000 := by
    simp [successSession, h8, expiresInOrDefault]
  have hacc : (successSession env td).accessToken = a := by
    simp [successSession, hta]
  have hval : ∀ m, (isSessionValid m
      { session := some (successSession env td), pkceVerifier := none, oauthState := none }).1
        = true ↔ m < env.now + 3600000 := by
    intro m
    by_cases hc : env.now + 3600000 ≤ m <;>
      simp [isSessionValid, getSession, hacc, ha, hexp, hne, hc] <;>
      omega
  refine ⟨by simp [hexp], ?_, ?_, ?_, hval n⟩
  · rw [hval]; omega
  · rw [Bool.eq_false_iff]
    intro hcon
    rw [hval] at hcon; omega
  · have hc : env.now + 3600000 ≤ env.now + 3600001 := by omega
    simp [isSessionValid, getSession, hacc, ha, hexp, hne, hc]

/-- Witness for C2 at concrete inputs. -/
theorem session_expiry_boundaries_witness :
    (({ session := none, pkceVerifier := some "v", oauthState := some "T" } : Store).oauthState
        = some "T") ∧
    ((isSessionValid 3599999
        (handleCallback
          { now := 0, svcScope := "sc", userinfoEndpoint := none,
            tokenFetch := Except.ok { access_token := some "at", expires_in := some 3600 } }
          "T"
          { session := none, pkceVerifier := some "v", oauthState := some "T" }).store).1
      = true) := by
  refine ⟨by decide, ?_⟩
  exact (session_expiry_boundaries
    { now := 0, svcScope := "sc", userinfoEndpoint := none,
      tokenFetch := Except.ok { access_token := some "at", expires_in := some 3600 } }
    "T" { session := none, pkceVerifier := some "v", oauthState := some "T" }
    "v" { access_token := some "at", expires_in := some 3600 } 0
    rfl (by decide) rfl (by decide) rfl (by decide) (by decide) rfl).2.1

/-- C3 counterexample: a token response carrying expires_in = 0 is
accepted, but the stored session's expiresAt is now + 3600000 (the code
uses the JS || operator, so 0 falls back to the one-hour default), not
now + 0 * 1000 as the claim requires. -/
theorem expiresIn_zero_counterexample :
    (exceptIsOk (handleCallback
        { now := 0, svcScope := "sc", userinfoEndpoint := none,
          tokenFetch := Except.ok { access_token := some "at", expires_in := some 0 } }
        "T" { session := none, pkceVerifier := some "v", oauthState := some "T" }).result
      = true) ∧
    ((handleCallback
        { now := 0, svcScope := "sc", userinfoEndpoint := none,
          tokenFetch := Except.ok { access_token := some "at", expires_in := some 0 } }
        "T" { session := none, pkceVerifier := some "v", oauthState := some "T" }).store.session.map
        AuthSession.expiresAt
      ≠ some (0 + 0 * 1000)) := by
  constructor
  · rfl
  · intro h
    simp [handleCallback, retrieveOAuthState, retrievePKCEVerifier, exchangeCodeForTokens,
      fetchUserInfo, storeSession, truthy, expiresInOrDefault, strOrDefault] at h

/-- C3 (amended): for every accepted token response, the stored session's
expiresAt is now + expires_in * 1000 when expires_in is present and
nonzero, and now + 3600 * 1000 when expires_in is absent or 0. -/
theorem session_expiresAt_formula (env : CallbackEnv) (state : String) (s : Store)
    (v : String) (td : TokenResponse)
    (h1 : s.oauthState = some state) (h2 : state ≠ "")
    (h3 : s.pkceVerifier = some v) (h4 : v ≠ "")
    (h5 : env.tokenFetch = Except.ok td)
    (h6 : truthy td.error = false) (h7 : truthy td.access_token = true) :
    ((td.expires_in = none ∨ td.expires_in = some 0) →
        (handleCallback env state s).store.session.map AuthSession.expiresAt
          = some (env.now + 3600 * 1000)) ∧
    (∀ k, td.expires_in = some k → k ≠ 0 →
        (handleCallback env state s).store.session.map AuthSession.expiresAt
          = some (env.now + k * 1000)) := by
  rw [handleCallback_success env state s v td h1 h2 h3 h4 h5 h6 h7]
  constructor
  · intro h
    rcases h with h | h <;> simp [successSession, expiresInOrDefault, h]
  · intro k hk hk0
    simp [successSession, expiresInOrDefault, hk, hk0]

/-- Witness for the amended C3 at concrete inputs. -/
theorem session_expiresAt_formula_witness :
    (({ session := none, pkceVerifier := some "v", oauthState := some "T" } : Store).oauthState
        = some "T") ∧
    ((handleCallback
        { now := 7, svcScope := "sc", userinfoEndpoint := none,
          tokenFetch := Except.ok { access_token := some "at", expires_in := some 60 } }
        "T" { session := none, pkceVerifier := some "v", oauthState := some "T" }).store.session.map
        AuthSession.expiresAt
      = some (7 + 60 * 1000)) := by
  refine ⟨by decide, ?_⟩
  exact (session_expiresAt_formula
    { now := 7, svcScope := "sc", userinfoEndpoint := none,
      tokenFetch := Except.ok { access_token := some "at", expires_in := some 60 } }
    "T" { session := none, pkceVerifier := some "v", oauthState := some "T" }
    "v" { access_token := some "at", expires_in := some 60 }
    rfl (by decide) rfl (by decide) rfl (by decide) (by decide)).2
    60 rfl (by decide)

/-- The sub claim of the user carried by a successful callback result. -/
def callbackUserSub (r : CallbackResult) : Option (Option String) :=
  match r.result with
  | Except.ok (u, _) => some u.sub
  | Except.error _ => none

/-- Helper: when no userinfo endpoint is configured or the userinfo fetch
fails, fetchUserInfo degrades to a user whose sub is "unknown". -/
theorem fetchUserInfo_degraded (env : CallbackEnv)
    (h : truthy env.userinfoEndpoint = false ∨ exceptIsOk env.userinfoFetch = false) :
    (fetchUserInfo env).1.sub = some "unknown" := by
  by_cases he : truthy env.userinfoEndpoint = false
  · simp [fetchUserInfo, he]
  · rcases h with h | h
    · exact absurd h he
    · rcases hf : env.userinfoFetch with e | u
      · simp [fetchUserInfo, he, hf]
      · rw [hf] at h; simp [exceptIsOk] at h

/-- C9: when the token exchange succeeds but the userinfo step fails
(no endpoint configured, or the fetch fails), handleCallback still
succeeds, returning and persisting a user whose sub is "unknown". -/
theorem handleCallback_userinfo_degraded (env : CallbackEnv) (state : String) (s : Store)
    (v : String) (td : TokenResponse)
    (h1 : s.oauthState = some state) (h2 : state ≠ "")
    (h3 : s.pkceVerifier = some v) (h4 : v ≠ "")
    (h5 : env.tokenFetch = Except.ok td)
    (h6 : truthy td.error = false) (h7 : truthy td.access_token = true)
    (h8 : truthy env.userinfoEndpoint = false ∨ exceptIsOk env.userinfoFetch = false) :
    exceptIsOk (handleCallback env state s).result = true ∧
    callbackUserSub (handleCallback env state s) = some (some "unknown") ∧
    (handleCallback env state s).store.session.map (fun sess => sess.user.sub)
      = some (some "unknown") := by
  rw [handleCallback_success env state s v td h1 h2 h3 h4 h5 h6 h7]
  have hu := fetchUserInfo_degraded env h8
  exact ⟨rfl, by simp [callbackUserSub, hu], by simp [successSession, hu]⟩

/-- Witness for C9 at concrete inputs (userinfo fetch failing). -/
theorem handleCallback_userinfo_degraded_witness :
    (exceptIsOk (handleCallback
        { now := 0, svcScope := "sc", userinfoEndpoint := some "https://idp/u",
          tokenFetch := Except.ok { access_token := some "at" },
          userinfoFetch := Except.error "network down" }
        "T" { session := none, pkceVerifier := some "v", oauthState := some "T" }).result
      = true) ∧
    (callbackUserSub (handleCallback
        { now := 0, svcScope := "sc", userinfoEndpoint := some "https://idp/u",
          tokenFetch := Except.ok { access_token := some "at" },
          userinfoFetch := Except.error "network down" }
        "T" { session := none, pkceVerifier := some "v", oauthState := some "T" })
      = some (some "unknown")) := by
  have h := handleCallback_userinfo_degraded
    { now := 0, svcScope := "sc", userinfoEndpoint := some "https://idp/u",
      tokenFetch := Except.ok { access_token := some "at" },
      userinfoFetch := Except.error "network down" }
    "T" { session := none, pkceVerifier := some "v", oauthState := some "T" }
    "v" { access_token := some "at" }
    rfl (by decide) rfl (by decide) rfl (by decide) (by decide) (Or.inr rfl)
  exact ⟨h.1, h.2.1⟩

/-! ## OIDC discovery (src/services/oidcDiscovery.ts) -/

/-- Raw well-known configuration document (types/auth.ts). -/
structure OIDCConfiguration where
  authorization_endpoint : Option String := none
  token_endpoint : Option String := none
  userinfo_endpoint : Option String := none
  end_session_endpoint : Option String := none
  issuer : Option String := none
  scopes_supported : Option (List String) := none
  response_types_supported : Option (List String) := none
  code_challenge_methods_supported : Option (List String) := none
deriving Repr, DecidableEq

/-- Normalized endpoint set returned by discovery (types/auth.ts). -/
structure OIDCEndpoints where
  authorizationEndpoint : Option String
  tokenEndpoint : Option String
  supportedScopes : List String
  supportedResponseTypes : List String
  supportedCodeChallengeMethods : List String
  userinfoEndpoint : Option String := none
  issuer : Option String := none
  endSessionEndpoint : Option String := none
deriving Repr, DecidableEq

/-- One cached configuration with the timestamp it was stored at. -/
structure OIDCCacheEntry where
  config : OIDCConfiguration
  timestamp : Nat
deriving Repr, DecidableEq

/-- The localStorage keys oidc-manifest-{btoa(authority)}, keyed here by
the authority itself (btoa is injective on authority strings). -/
abbrev OIDCCache := List (String × OIDCCacheEntry)

def cacheLookup (c : OIDCCache) (k : String) : Option OIDCCacheEntry :=
  (c.find? (fun p => p.1 == k)).map Prod.snd

def cacheRemove (c : OIDCCache) (k : String) : OIDCCache :=
  c.filter (fun p => p.1 != k)

def cacheInsert (c : OIDCCache) (k : String) (e : OIDCCacheEntry) : OIDCCache :=
  (k, e) :: cacheRemove c k

/-- getCachedConfiguration: a hit older than 24h (86400000 ms) is removed
and reported absent; otherwise the cached configuration is returned. -/
def getCachedConfiguration (now : Nat) (authority : String) (c : OIDCCache) :
    Option OIDCConfiguration × OIDCCache :=
  match cacheLookup c authority with
  | none => (none, c)
  | some e =>
    if now - e.timestamp > 86400000 then (none, cacheRemove c authority)
    else (some e.config, c)

/-- validateOIDCConfiguration: authorization_endpoint and token_endpoint
must be present (truthy). -/
def validateOIDCConfiguration (cfg : OIDCConfiguration) : Bool :=
  truthy cfg.authorization_endpoint && truthy cfg.token_endpoint

/-- fetchOIDCConfiguration: outcome of the well-known fetch followed by
validation.  fetchResult is the oracle describing what the network fetch
would produce. -/
def fetchOIDCConfiguration (fetchResult : Except String OIDCConfiguration)
    (authority : String) : Except String OIDCConfiguration :=
  if authority = "" then
    Except.error "OAuth authority is required for OIDC discovery"
  else
    match fetchResult with
    | Except.error e => Except.error e
    | Except.ok cfg =>
      if validateOIDCConfiguration cfg then Except.ok cfg
      else Except.error "OIDC configuration missing required endpoints"

/-- The endpoint-set extraction at the end of discoverOIDCEndpoints. -/
def extractEndpoints (cfg : OIDCConfiguration) : OIDCEndpoints :=
  { authorizationEndpoint := cfg.authorization_endpoint
    tokenEndpoint := cfg.token_endpoint
    supportedScopes := cfg.scopes_supported.getD []
    supportedResponseTypes := cfg.response_types_supported.getD []
    supportedCodeChallengeMethods := cfg.code_challenge_methods_supported.getD []
    userinfoEndpoint := if truthy cfg.userinfo_endpoint then cfg.userinfo_endpoint else none
    issuer := if truthy cfg.issuer then cfg.issuer else none
    endSessionEndpoint :=
      if truthy cfg.end_session_endpoint then cfg.end_session_endpoint else none }

/-- discoverOIDCEndpoints: cache first, fetch on miss/expiry, store fresh
result.  Returns (outcome, cache afterwards, number of fetches issued). -/
def discoverOIDCEndpoints (now : Nat) (fetchResult : Except String OIDCConfiguration)
    (authority : String) (c : OIDCCache) :
    Except String OIDCEndpoints × OIDCCache × Nat :=
  if authority = "" then (Except.error "OAuth authority is required", c, 0)
  else
    match getCachedConfiguration now authority c with
    | (some cfg, c1) => (Except.ok (extractEndpoints cfg), c1, 0)
    | (none, c1) =>
      match fetchOIDCConfiguration fetchResult authority with
      | Except.error e => (Except.error e, c1, 1)
      | Except.ok cfg =>
        (Except.ok (extractEndpoints cfg), cacheInsert c1 authority ⟨cfg, now⟩, 1)

/-- C4: a call that fetched successfully at t0 makes any second call for
the same authority within 24h return the same endpoint set from cache with
no fetch; and an entry older than 24h is never used: discovery fetches
again, and if that fetch fails, discovery fails. -/
theorem discovery_cache_window :
    (∀ t0 t1 f0 f1 a c0 eps c1,
        discoverOIDCEndpoints t0 f0 a c0 = (Except.ok eps, c1, 1) →
        t1 - t0 ≤ 86400000 →
        discoverOIDCEndpoints t1 f1 a c1 = (Except.ok eps, c1, 0)) ∧
    (∀ now f a c entry,
        a ≠ "" →
        cacheLookup c a = some entry →
        now - entry.timestamp > 86400000 →
        (discoverOIDCEndpoints now f a c).2.2 = 1 ∧
        ∀ e, f = Except.error e →
          (discoverOIDCEndpoints now f a c).1 = Except.error e) := by
  constructor
  · intro t0 t1 f0 f1 a c0 eps c1 hd ht
    by_cases ha : a = ""
    · rw [ha] at hd
      simp [discoverOIDCEndpoints] at hd
    · rw [discoverOIDCEndpoints, if_neg ha] at hd
      rcases hg : getCachedConfiguration t0 a c0 with ⟨ocfg, c1'⟩
      rw [hg] at hd
      rcases ocfg with _ | cfg0
      · rcases hf : fetchOIDCConfiguration f0 a with e | cfg
        · rw [hf] at hd; simp at hd
        · rw [hf] at hd
          simp only [Prod.mk.injEq] at hd
          obtain ⟨heps, hc1, -⟩ := hd
          obtain rfl : eps = extractEndpoints cfg := by
            injection heps with h; exact h.symm
          subst hc1
          rw [discoverOIDCEndpoints, if_neg ha]
          have hlk : cacheLookup (cacheInsert c1' a ⟨cfg, t0⟩) a = some ⟨cfg, t0⟩ := by
            simp [cacheLookup, cacheInsert, List.find?]
          have hnotexp : ¬ (t1 - t0 > 86400000) := by omega
          rw [getCachedConfiguration, hlk]
          simp [hnotexp]
      · simp at hd
  · intro now f a c entry ha hlk hexp
    have hg : getCachedConfiguration now a c = (none, cacheRemove c a) := by
      rw [getCachedConfiguration, hlk]
      simp [hexp]
    constructor
    · rw [discoverOIDCEndpoints, if_neg ha, hg]
      rcases hf : fetchOIDCConfiguration f a with e | cfg <;> simp [hf]
    · intro e he
      subst he
      rw [discoverOIDCEndpoints, if_neg ha, hg]
      have hf : fetchOIDCConfiguration (Except.error e) a = Except.error e := by
        rw [fetchOIDCConfiguration, if_neg ha]
      rw [hf]

/-- Witness for C4: a concrete fetched-then-cached flow and a concrete
stale entry with a failing refetch. -/
theorem discovery_cache_window_witness :
    (discoverOIDCEndpoints 1000 (Except.error "down") "https://idp"
        [("https://idp",
          ⟨{ authorization_endpoint := some "A", token_endpoint := some "T" }, 0⟩)]
      = (Except.ok (extractEndpoints
          { authorization_endpoint := some "A", token_endpoint := some "T" }),
         [("https://idp",
           ⟨{ authorization_endpoint := some "A", token_endpoint := some "T" }, 0⟩)], 0)) ∧
    ((discoverOIDCEndpoints 86400002 (Except.error "down") "https://idp"
        [("https://idp",
          ⟨{ authorization_endpoint := some "A", token_endpoint := some "T" }, 0⟩)]).1
      = Except.error "down") := by
  constructor
  · exact discovery_cache_window.1 0 1000 (Except.ok
      { authorization_endpoint := some "A", token_endpoint := some "T" })
      (Except.error "down") "https://idp" [] _ _ rfl (by decide)
  · exact (discovery_cache_window.2 86400002 (Except.error "down") "https://idp"
      [("https://idp",
        ⟨{ authorization_endpoint := some "A", token_endpoint := some "T" }, 0⟩)]
      ⟨{ authorization_endpoint := some "A", token_endpoint := some "T" }, 0⟩
      (by decide) (by decide) (by decide)).2 "down" rfl

/-! ## AWS service (src/services/awsService.ts) -/

/-- Credentials block of the STS response (all fields optional until
validated). -/
structure STSCredentials where
  AccessKeyId : Option String := none
  SecretAccessKey : Option String := none
  SessionToken : Option String := none
  Expiration : Option Nat := none
deriving Repr, DecidableEq

/-- AssumeRoleWithWebIdentity response body. -/
structure STSResponse where
  Credentials : Option STSCredentials := none
deriving Repr, DecidableEq

/-- Validated credential quadruple returned on success. -/
structure AssumeRoleResult where
  AccessKeyId : String
  SecretAccessKey : String
  SessionToken : String
  Expiration : Nat
deriving Repr, DecidableEq

/-- AWSService.assumeRoleWithWebIdentity: input validation (missing
parameters, then the 900..43200 duration bounds from AWS_CONSTANTS)
happens before the STS network call; the Bool reports whether the STS
send was issued.  stsSend is the oracle for the network outcome. -/
def assumeRoleWithWebIdentity (stsSend : Except String STSResponse)
    (roleArn webIdentityToken sessionName : String) (durationSeconds : Int) :
    Except String AssumeRoleResult × Bool :=
  if roleArn = "" ∨ webIdentityToken = "" ∨ sessionName = "" then
    (Except.error "Missing required parameters for AssumeRoleWithWebIdentity", false)
  else if durationSeconds < 900 ∨ durationSeconds > 43200 then
    (Except.error "Duration must be between 900 and 43200 seconds", false)
  else
    match stsSend with
    | Except.error e => (Except.error e, true)
    | Except.ok resp =>
      match resp.Credentials with
      | none => (Except.error "No credentials received from AWS STS", true)
      | some cr =>
        if truthy cr.AccessKeyId = false ∨ truthy cr.SecretAccessKey = false ∨
            truthy cr.SessionToken = false ∨ cr.Expiration = none then
          (Except.error "Incomplete credentials in AWS STS response", true)
        else
          (Except.ok ⟨cr.AccessKeyId.getD "", cr.SecretAccessKey.getD "",
            cr.SessionToken.getD "", cr.Expiration.getD 0⟩, true)

/-- C6: a durationSeconds outside [900, 43200] is rejected with an error
before any STS network call; durations inside the interval pass this
validation (the send is issued whenever the required parameters are
present). -/
theorem assumeRole_duration_validation (stsSend : Except String STSResponse)
    (roleArn webIdentityToken sessionName : String) (d : Int) :
    ((d < 900 ∨ d > 43200) →
        exceptIsOk (assumeRoleWithWebIdentity stsSend roleArn webIdentityToken
            sessionName d).1 = false ∧
        (assumeRoleWithWebIdentity stsSend roleArn webIdentityToken sessionName d).2
          = false) ∧
    (900 ≤ d → d ≤ 43200 → roleArn ≠ "" → webIdentityToken ≠ "" → sessionName ≠ "" →
        (assumeRoleWithWebIdentity stsSend roleArn webIdentityToken sessionName d).2
          = true) := by
  constructor
  · intro hd
    by_cases hp : roleArn = "" ∨ webIdentityToken = "" ∨ sessionName = ""
    · simp [assumeRoleWithWebIdentity, hp, exceptIsOk]
    · simp [assumeRoleWithWebIdentity, hp, hd, exceptIsOk]
  · intro hlo hhi hr ht hn
    have hp : ¬ (roleArn = "" ∨ webIdentityToken = "" ∨ sessionName = "") := by
      simp [hr, ht, hn]
    have hd : ¬ (d < 900 ∨ d > 43200) := by omega
    rcases stsSend with e | resp
    · simp [assumeRoleWithWebIdentity, hp, hd]
    · rcases resp with ⟨ocr⟩
      rcases ocr with _ | cr
      · simp [assumeRoleWithWebIdentity, hp, hd]
      · by_cases hcr : truthy cr.AccessKeyId = false ∨ truthy cr.SecretAccessKey = false ∨
            truthy cr.SessionToken = false ∨ cr.Expiration = none
        · simp [assumeRoleWithWebIdentity, hp, hd, hcr]
        · simp [assumeRoleWithWebIdentity, hp, hd, hcr]

/-- Witness for C6: rejected at 899 without a send, sent at 3600. -/
theorem assumeRole_duration_validation_witness :
    (exceptIsOk (assumeRoleWithWebIdentity (Except.error "net") "arn:aws:iam::123456789012:role/R"
        "tok" "sess" 899).1 = false) ∧
    ((assumeRoleWithWebIdentity (Except.error "net") "arn:aws:iam::123456789012:role/R"
        "tok" "sess" 899).2 = false) ∧
    ((assumeRoleWithWebIdentity (Except.error "net") "arn:aws:iam::123456789012:role/R"
        "tok" "sess" 3600).2 = true) := by
  have h1 := (assumeRole_duration_validation (Except.error "net")
    "arn:aws:iam::123456789012:role/R" "tok" "sess" 899).1 (Or.inl (by decide))
  have h2 := (assumeRole_duration_validation (Except.error "net")
    "arn:aws:iam::123456789012:role/R" "tok" "sess" 3600).2 (by decide) (by decide)
    (by decide) (by decide) (by decide)
  exact ⟨h1.1, h1.2, h2⟩

/-- JS regex class \w = [A-Za-z0-9_]. -/
def wordChar (c : Char) : Bool := c.isAlphanum || c == '_'

/-- The extra characters AWS allows in session names: + = , . @ - . -/
def sessionNameExtraChar (c : Char) : Bool :=
  c == '+' || c == '=' || c == ',' || c == '.' || c == '@' || c == '-'

/-- One character of AWS_SESSION_NAME_PATTERN = \^[\w+=,.@-]+$. -/
def sessionNameChar (c : Char) : Bool := wordChar c || sessionNameExtraChar c

/-- AWS_SESSION_NAME_PATTERN.test: nonempty and every char allowed. -/
def sessionNamePatternTest (l : List Char) : Bool :=
  decide (l ≠ []) && l.all sessionNameChar

/-- Characters kept by username.replace(/[^a-zA-Z0-9+=,.@-]/g, '-')
(note: no underscore in this class). -/
def cleanKeepChar (c : Char) : Bool := c.isAlphanum || sessionNameExtraChar c

/-- email?.split('@')[0]. -/
def emailLocalPart (e : String) : String :=
  String.mk (e.data.takeWhile (fun c => c != '@'))

/-- sub?.replace(/[^a-zA-Z0-9]/g, ''). -/
def stripNonAlphanum (s : String) : String :=
  String.mk (s.data.filter Char.isAlphanum)

/-- The || fallback chain deriving the base username. -/
def baseUsername (githubUser : UserInfo) : String :=
  strOrDefault githubUser.login
    (strOrDefault githubUser.preferred_username
      (strOrDefault (githubUser.email.map emailLocalPart)
        (strOrDefault (githubUser.sub.map stripNonAlphanum) "github-user")))

/-- Components of the current UTC date, as read by Date#toISOString. -/
structure DateParts where
  year : Nat
  month : Nat
  day : Nat
  hour : Nat
  minute : Nat
  second : Nat
  ms : Nat
deriving Repr, DecidableEq

/-- Decimal digit character of n % 10. -/
def digitChar (n : Nat) : Char :=
  match n % 10 with
  | 0 => '0' | 1 => '1' | 2 => '2' | 3 => '3' | 4 => '4'
  | 5 => '5' | 6 => '6' | 7 => '7' | 8 => '8' | _ => '9'

/-- Decimal digit string of a natural number. -/
def natChars (n : Nat) : List Char :=
  if h : n < 10 then [digitChar n]
  else natChars (n / 10) ++ [digitChar (n % 10)]
termination_by n
decreasing_by exact Nat.div_lt_self (by omega) (by omega)

/-- String(n).padStart(w, '0'). -/
def padTo (w : Nat) (n : Nat) : List Char :=
  List.replicate (w - (natChars n).length) '0' ++ natChars n

/-- Date#toISOString: YYYY-MM-DDTHH:mm:ss.sssZ. -/
def toISOString (d : DateParts) : List Char :=
  padTo 4 d.year ++ ['-'] ++ padTo 2 d.month ++ ['-'] ++ padTo 2 d.day ++ ['T'] ++
  padTo 2 d.hour ++ [':'] ++ padTo 2 d.minute ++ [':'] ++ padTo 2 d.second ++ ['.'] ++
  padTo 3 d.ms ++ ['Z']

/-- new Date().toISOString().replace(/[:.]/g, '-').slice(0, 19). -/
def sessionTimestamp (d : DateParts) : List Char :=
  ((toISOString d).map (fun c => if c == ':' || c == '.' then '-' else c)).take 19

/-- AWSService.generateSessionName: derive a base name, sanitize it,
append the timestamp, truncate to 64 chars, validate against the session
name pattern, falling back to github-user-{timestamp} on failure. -/
def generateSessionName (d : DateParts) (githubUser : UserInfo) : String :=
  let username := baseUsername githubUser
  let cleanUsername := username.data.map (fun c => if cleanKeepChar c then c else '-')
  let timestamp := sessionTimestamp d
  let sessionName := "github-".data ++ cleanUsername ++ ['-'] ++ timestamp
  let finalSessionName := sessionName.take 64
  if sessionNamePatternTest finalSessionName then String.mk finalSessionName
  else String.mk (("github-user-".data ++ timestamp).take 64)

theorem digitChar_mem (n : Nat) :
    digitChar n ∈ ['0', '1', '2', '3', '4', '5', '6', '7', '8', '9'] := by
  unfold digitChar
  split <;> simp

theorem sessionNameChar_digitChar (n : Nat) : sessionNameChar (digitChar n) = true := by
  have h := digitChar_mem n
  generalize digitChar n = c at h ⊢
  fin_cases h <;> decide

theorem mem_natChars (n : Nat) (c : Char) (h : c ∈ natChars n) :
    sessionNameChar c = true := by
  induction n using Nat.strong_induction_on with
  | _ n ih =>
    rw [natChars] at h
    split at h
    · simp only [List.mem_singleton] at h
      subst h
      exact sessionNameChar_digitChar n
    · rcases List.mem_append.mp h with h1 | h1
      · exact ih (n / 10) (Nat.div_lt_self (by omega) (by omega)) h1
      · simp only [List.mem_singleton] at h1
        subst h1
        exact sessionNameChar_digitChar (n % 10)

theorem mem_padTo (w n : Nat) (c : Char) (h : c ∈ padTo w n) :
    sessionNameChar c = true := by
  rcases List.mem_append.mp h with h1 | h1
  · rw [List.eq_of_mem_replicate h1]
    decide
  · exact mem_natChars n c h1

theorem mem_toISOString (d : DateParts) (c : Char) (h : c ∈ toISOString d) :
    sessionNameChar c = true ∨ c = ':' ∨ c = '.' := by
  simp only [toISOString, List.append_assoc, List.mem_append, List.mem_singleton] at h
  rcases h with h | h | h | h | h | h | h | h | h | h | h | h | h | h
  · exact Or.inl (mem_padTo 4 d.year c h)
  · subst h; exact Or.inl (by decide)
  · exact Or.inl (mem_padTo 2 d.month c h)
  · subst h; exact Or.inl (by decide)
  · exact Or.inl (mem_padTo 2 d.day c h)
  · subst h; exact Or.inl (by decide)
  · exact Or.inl (mem_padTo 2 d.hour c h)
  · subst h; exact Or.inr (Or.inl rfl)
  · exact Or.inl (mem_padTo 2 d.minute c h)
  · subst h; exact Or.inr (Or.inl rfl)
  · exact Or.inl (mem_padTo 2 d.second c h)
  · subst h; exact Or.inr (Or.inr rfl)
  · exact Or.inl (mem_padTo 3 d.ms c h)
  · subst h; exact Or.inl (by decide)

theorem mem_sessionTimestamp (d : DateParts) (c : Char) (h : c ∈ sessionTimestamp d) :
    sessionNameChar c = true := by
  have h1 := List.mem_of_mem_take h
  rcases List.mem_map.mp h1 with ⟨c0, hc0, hrepl⟩
  by_cases hpm : (c0 == ':' || c0 == '.') = true
  · rw [if_pos hpm] at hrepl
    subst hrepl
    decide
  · rw [if_neg hpm] at hrepl
    subst hrepl
    rcases mem_toISOString d c0 hc0 with hg | hg | hg
    · exact hg
    · subst hg; simp at hpm
    · subst hg; simp at hpm

theorem sessionNameChar_of_cleanKeep (c : Char) (h : cleanKeepChar c = true) :
    sessionNameChar c = true := by
  simp only [cleanKeepChar, Bool.or_eq_true] at h
  simp only [sessionNameChar, wordChar, Bool.or_eq_true]
  tauto

/-- Helper: truncating to 64 a list of at least one allowed character
yields a passing session name of length at most 64. -/
theorem take64_pattern (l : List Char) (h7 : 1 ≤ l.length)
    (hall : ∀ c ∈ l, sessionNameChar c = true) :
    sessionNamePatternTest (l.take 64) = true ∧ (l.take 64).length ≤ 64 := by
  constructor
  · simp only [sessionNamePatternTest, Bool.and_eq_true, decide_eq_true_eq]
    constructor
    · intro hnil
      have hl := congrArg List.length hnil
      simp only [List.length_take, List.length_nil] at hl
      omega
    · rw [List.all_eq_true]
      exact fun c hc => hall c (List.mem_of_mem_take hc)
  · simp only [List.length_take]
    omega

/-- C7: for every UserInfo input and every clock reading,
generateSessionName returns a string of length at most 64 that matches
the AWS session-name pattern \^[\w+=,.@-]+$ (in particular it never
raises: the embedding is a total function). -/
theorem generateSessionName_safe (d : DateParts) (githubUser : UserInfo) :
    (generateSessionName d githubUser).length ≤ 64 ∧
    sessionNamePatternTest (generateSessionName d githubUser).data = true := by
  have hgit : ∀ c ∈ "github-".data, sessionNameChar c = true := by decide
  have hall : ∀ c ∈ ("github-".data ++
      ((baseUsername githubUser).data.map (fun c => if cleanKeepChar c then c else '-') ++
        (['-'] ++ sessionTimestamp d))), sessionNameChar c = true := by
    intro c hc
    rcases List.mem_append.mp hc with hc | hc
    · exact hgit c hc
    · rcases List.mem_append.mp hc with hc | hc
      · rcases List.mem_map.mp hc with ⟨c0, _, hrepl⟩
        by_cases hk : cleanKeepChar c0 = true
        · rw [if_pos hk] at hrepl
          subst hrepl
          exact sessionNameChar_of_cleanKeep c0 hk
        · rw [if_neg hk] at hrepl
          subst hrepl
          decide
      · rcases List.mem_append.mp hc with hc | hc
        · rw [List.mem_singleton.mp hc]
          decide
        · exact mem_sessionTimestamp d c hc
  have hall' : ∀ c ∈ ("github-".data ++
      (baseUsername githubUser).data.map (fun c => if cleanKeepChar c then c else '-') ++
      ['-'] ++ sessionTimestamp d), sessionNameChar c = true := by
    intro c hc
    apply hall c
    simpa [List.append_assoc] using hc
  have h7 : 1 ≤ ("github-".data ++
      (baseUsername githubUser).data.map (fun c => if cleanKeepChar c then c else '-') ++
      ['-'] ++ sessionTimestamp d).length := by
    simp [List.length_append]
  obtain ⟨htest, hlen⟩ := take64_pattern _ h7 hall'
  have hgen : generateSessionName d githubUser =
      String.mk (("github-".data ++
        (baseUsername githubUser).data.map (fun c => if cleanKeepChar c then c else '-') ++
        ['-'] ++ sessionTimestamp d).take 64) := by
    rw [generateSessionName]
    simp only []
    rw [if_pos htest]
  rw [hgen]
  exact ⟨hlen, htest⟩

/-! ## Role ARN storage (src/services/roleArnStorage.ts) -/

/-- AWS_ROLE_ARN_PATTERN = \^arn:aws:iam::\d{12}:role\/[\w+=,.@-]+$:
13-char literal prefix, exactly 12 digits, the literal :role/, then a
nonempty name over [\w+=,.@-]. -/
def roleArnTest (l : List Char) : Bool :=
  (l.take 13 == "arn:aws:iam::".data) &&
  ((l.drop 13).take 12).all Char.isDigit &&
  (((l.drop 13).take 12).length == 12) &&
  ((l.drop 25).take 6 == ":role/".data) &&
  decide (l.drop 31 ≠ []) &&
  (l.drop 31).all sessionNameChar

/-- The unanchored extraction regex arn:aws:iam::\d{12}:role\/(.+)$,
evaluated at the start of the string (every call site passes a string
already validated against the anchored pattern). -/
def roleArnLooseTest (l : List Char) : Bool :=
  (l.take 13 == "arn:aws:iam::".data) &&
  ((l.drop 13).take 12).all Char.isDigit &&
  (((l.drop 13).take 12).length == 12) &&
  ((l.drop 25).take 6 == ":role/".data) &&
  decide (l.drop 31 ≠ []) &&
  (l.drop 31).all (fun c => c != '\n')

/-- extractRoleName: capture group 1 of the loose pattern, else Unknown. -/
def extractRoleName (arn : String) : String :=
  if roleArnLooseTest arn.data then String.mk (arn.data.drop 31) else "Unknown"

/-- extractAccountId: the 12-digit account id, else Unknown. -/
def extractAccountId (arn : String) : String :=
  if roleArnLooseTest arn.data then String.mk ((arn.data.drop 13).take 12) else "Unknown"

structure RoleArnHistoryItem where
  arn : String
  name : String
  accountId : String
  lastUsed : Nat
  useCount : Nat
deriving Repr, DecidableEq

structure RoleArnHistory where
  roles : List RoleArnHistoryItem
  maxItems : Nat
deriving Repr, DecidableEq

/-- getHistory: absent or structurally invalid storage resets to an empty
list; maxItems is always overwritten with the service's bound. -/
def getHistory (maxItems : Nat) (stored : Option RoleArnHistory) : RoleArnHistory :=
  match stored with
  | none => ⟨[], maxItems⟩
  | some h => { h with maxItems := maxItems }

/-- The trim-to-bound step at the end of addRoleArn. -/
def trimRoles (maxItems : Nat) (roles : List RoleArnHistoryItem) :
    List RoleArnHistoryItem :=
  if roles.length > maxItems then roles.take maxItems else roles

/-- The ECMAScript WhiteSpace / LineTerminator set stripped by
String#trim: TAB, LF, VT, FF, CR, SP, NBSP, and the Unicode
Zs spaces (U+1680, U+2000..U+200A, U+202F, U+205F, U+3000) plus
LS (U+2028), PS (U+2029) and ZWNBSP (U+FEFF). -/
def jsWhitespaceChar (c : Char) : Bool :=
  decide (9 ≤ c.toNat ∧ c.toNat ≤ 13) || c.toNat == 32 || c.toNat == 160 ||
  c.toNat == 5760 || decide (8192 ≤ c.toNat ∧ c.toNat ≤ 8202) ||
  c.toNat == 8232 || c.toNat == 8233 || c.toNat == 8239 ||
  c.toNat == 8287 || c.toNat == 12288 || c.toNat == 65279

/-- JS String#trim: strip leading and trailing ECMAScript whitespace. -/
def jsTrim (s : String) : String :=
  String.mk
    (((s.data.dropWhile jsWhitespaceChar).reverse.dropWhile jsWhitespaceChar).reverse)

/-- RoleArnStorageService.addRoleArn: validate (after String#trim), then
either bump-and-move-to-front an existing entry or insert a fresh one,
trim, and save.  Returns the outcome and the storage afterwards. -/
def addRoleArn (now maxItems : Nat) (arn : String) (stored : Option RoleArnHistory) :
    Except String Unit × Option RoleArnHistory :=
  if arn = "" then (Except.error "Role ARN must be a non-empty string", stored)
  else
    let trimmedArn := jsTrim arn
    if roleArnTest trimmedArn.data = false then
      (Except.error "Invalid AWS IAM Role ARN format", stored)
    else
      let history := getHistory maxItems stored
      let newRoles :=
        match history.roles.findIdx? (fun r => r.arn == trimmedArn) with
        | some i =>
          match history.roles[i]? with
          | some existing =>
            { existing with lastUsed := now, useCount := existing.useCount + 1 } ::
              history.roles.eraseIdx i
          | none => history.roles
        | none =>
          ⟨trimmedArn, extractRoleName trimmedArn, extractAccountId trimmedArn, now, 1⟩ ::
            history.roles
      (Except.ok (), some ⟨trimRoles maxItems newRoles, maxItems⟩)

/-- C8 counterexample: a string with a leading space — or any other
ECMAScript whitespace such as NBSP (U+00A0) — does not match
AWS_ROLE_ARN_PATTERN (which is anchored at \^), yet addRoleArn trims it
first and therefore succeeds and mutates the stored history. -/
theorem addRoleArn_untrimmed_counterexample :
    roleArnTest " arn:aws:iam::123456789012:role/MyRole".data = false ∧
    exceptIsOk (addRoleArn 5 10 " arn:aws:iam::123456789012:role/MyRole" none).1 = true ∧
    ((addRoleArn 5 10 " arn:aws:iam::123456789012:role/MyRole" none).2 =
      some ⟨[⟨"arn:aws:iam::123456789012:role/MyRole", "MyRole", "123456789012", 5, 1⟩],
        10⟩) ∧
    roleArnTest " arn:aws:iam::123456789012:role/MyRole".data = false ∧
    exceptIsOk (addRoleArn 5 10 " arn:aws:iam::123456789012:role/MyRole" none).1
      = true ∧
    (addRoleArn 5 10 " arn:aws:iam::123456789012:role/MyRole" none).2 =
      some ⟨[⟨"arn:aws:iam::123456789012:role/MyRole", "MyRole", "123456789012", 5, 1⟩],
        10⟩ := by
  refine ⟨by decide, by decide, by decide, by decide, by decide, by decide⟩

/-- C8 (amended): adding the same valid ARN twice from an empty history
yields exactly one entry with useCount = 2 in front; and every string
whose trimmed form fails the IAM role ARN pattern (in particular every
empty or plainly malformed string) makes addRoleArn throw with the
persisted history left unchanged. -/
theorem addRoleArn_spec (s : String) (stored : Option RoleArnHistory)
    (now maxI : Nat) (h : roleArnTest (jsTrim s).data = false) :
    ((addRoleArn 2 10 "arn:aws:iam::123456789012:role/MyRole"
        (addRoleArn 1 10 "arn:aws:iam::123456789012:role/MyRole" none).2).2 =
      some ⟨[⟨"arn:aws:iam::123456789012:role/MyRole", "MyRole", "123456789012", 2, 2⟩],
        10⟩) ∧
    exceptIsOk (addRoleArn now maxI s stored).1 = false ∧
    (addRoleArn now maxI s stored).2 = stored := by
  refine ⟨by decide, ?_, ?_⟩ <;>
  · by_cases hs : s = ""
    · simp [addRoleArn, hs, exceptIsOk]
    · simp [addRoleArn, hs, h, exceptIsOk]

/-- Witness for C8 at the spec's concrete failing input. -/
theorem addRoleArn_spec_witness :
    roleArnTest (jsTrim "not-an-arn").data = false ∧
    exceptIsOk (addRoleArn 3 10 "not-an-arn"
        (some ⟨[⟨"arn:aws:iam::123456789012:role/Other", "Other", "123456789012", 1, 1⟩],
          10⟩)).1 = false ∧
    (addRoleArn 3 10 "not-an-arn"
        (some ⟨[⟨"arn:aws:iam::123456789012:role/Other", "Other", "123456789012", 1, 1⟩],
          10⟩)).2 =
      some ⟨[⟨"arn:aws:iam::123456789012:role/Other", "Other", "123456789012", 1, 1⟩],
        10⟩ := by
  have h := addRoleArn_spec "not-an-arn"
    (some ⟨[⟨"arn:aws:iam::123456789012:role/Other", "Other", "123456789012", 1, 1⟩], 10⟩)
    3 10 (by decide)
  exact ⟨by decide, h.2.1, h.2.2⟩

/-- Result of JSON.parse on the import payload: Except.error for a parse
failure, otherwise the parsed object whose roles field may be missing or
not an array (none). -/
structure ImportedHistory where
  roles : Option (List RoleArnHistoryItem) := none
deriving Repr, DecidableEq
/-- The comparator passed to Array#sort: (a, b) => b.lastUsed - a.lastUsed.
Array#sort is stable, so it is modelled by a stable sort under the
corresponding ordering relation. -/
def lastUsedDesc (a b : RoleArnHistoryItem) : Prop := b.lastUsed ≤ a.lastUsed

instance : DecidableRel lastUsedDesc := fun a b => Nat.decLe b.lastUsed a.lastUsed

instance : IsTotal RoleArnHistoryItem lastUsedDesc :=
  ⟨fun a b => Nat.le_total b.lastUsed a.lastUsed⟩

instance : IsTrans RoleArnHistoryItem lastUsedDesc :=
  ⟨fun _ _ _ hab hbc => Nat.le_trans hbc hab⟩

/-- RoleArnStorageService.importHistory: parse, check the roles array,
validate every imported ARN, then merge current entries not already
present (by ARN) into the imported list, sort (stably) by lastUsed
descending, trim to maxItems and save.  Any failure leaves storage
untouched. -/
def importHistory (maxItems : Nat) (parsed : Except String ImportedHistory)
    (stored : Option RoleArnHistory) : Except String Unit × Option RoleArnHistory :=
  match parsed with
  | Except.error e => (Except.error e, stored)
  | Except.ok imp =>
    match imp.roles with
    | none => (Except.error "Invalid history format: missing or invalid roles array", stored)
    | some iroles =>
      if iroles.any (fun r => r.arn == "" || roleArnTest r.arn.data = false) then
        (Except.error "Invalid role ARN in import data", stored)
      else
        let current := getHistory maxItems stored
        let merged := current.roles.foldl
          (fun acc cr => if acc.any (fun r => r.arn == cr.arn) then acc else acc ++ [cr])
          iroles
        let sorted := merged.insertionSort lastUsedDesc
        (Except.ok (), some ⟨sorted.take maxItems, maxItems⟩)

/-- Helper: anything in the merge fold came from the accumulator or from
the traversed list. -/
theorem mem_mergeFold (l : List RoleArnHistoryItem) (acc : List RoleArnHistoryItem)
    (r : RoleArnHistoryItem)
    (h : r ∈ l.foldl
      (fun acc cr => if acc.any (fun x => x.arn == cr.arn) then acc else acc ++ [cr]) acc) :
    r ∈ acc ∨ r ∈ l := by
  induction l generalizing acc with
  | nil => exact Or.inl h
  | cons x xs ih =>
    simp only [List.foldl_cons] at h
    rcases ih _ h with h1 | h1
    · by_cases hx : acc.any (fun y => y.arn == x.arn) = true
      · rw [if_pos hx] at h1
        exact Or.inl h1
      · rw [if_neg hx] at h1
        rcases List.mem_append.mp h1 with h2 | h2
        · exact Or.inl h2
        · right
          rw [List.mem_singleton.mp h2]
          exact List.mem_cons_self x xs
    · exact Or.inr (List.mem_cons_of_mem x h1)

/-- C10 counterexample: an import whose roles array carries two distinct
entries with the same (valid) ARN is accepted, and both entries end up in
the stored history, so the resulting history is not deduplicated by ARN. -/
theorem importHistory_duplicate_counterexample :
    ((importHistory 10 (Except.ok ⟨some
        [⟨"arn:aws:iam::123456789012:role/MyRole", "A", "123456789012", 10, 1⟩,
         ⟨"arn:aws:iam::123456789012:role/MyRole", "B", "123456789012", 5, 1⟩]⟩) none).2 =
      some ⟨[⟨"arn:aws:iam::123456789012:role/MyRole", "A", "123456789012", 10, 1⟩,
             ⟨"arn:aws:iam::123456789012:role/MyRole", "B", "123456789012", 5, 1⟩], 10⟩) ∧
    (⟨"arn:aws:iam::123456789012:role/MyRole", "A", "123456789012", 10, 1⟩ :
        RoleArnHistoryItem) ≠
      ⟨"arn:aws:iam::123456789012:role/MyRole", "B", "123456789012", 5, 1⟩ ∧
    (RoleArnHistoryItem.arn
        ⟨"arn:aws:iam::123456789012:role/MyRole", "A", "123456789012", 10, 1⟩ =
      RoleArnHistoryItem.arn
        ⟨"arn:aws:iam::123456789012:role/MyRole", "B", "123456789012", 5, 1⟩) := by
  refine ⟨by decide, by decide, rfl⟩

/-- The merge the amended claim describes: the imported entries are kept
(first argument, in order) and each current entry is appended exactly when
its ARN does not already occur in the merged list built so far. -/
def mergeByArn (merged : List RoleArnHistoryItem) :
    List RoleArnHistoryItem → List RoleArnHistoryItem
  | [] => merged
  | cr :: rest =>
    if merged.any (fun r => r.arn == cr.arn) then mergeByArn merged rest
    else mergeByArn (merged ++ [cr]) rest

/-- Helper: the code's merge fold computes exactly mergeByArn. -/
theorem mergeFold_eq_mergeByArn (l : List RoleArnHistoryItem)
    (acc : List RoleArnHistoryItem) :
    l.foldl (fun acc cr => if acc.any (fun r => r.arn == cr.arn) then acc else acc ++ [cr])
        acc
      = mergeByArn acc l := by
  induction l generalizing acc with
  | nil => rfl
  | cons x xs ih =>
    simp only [List.foldl_cons, mergeByArn]
    by_cases hx : acc.any (fun r => r.arn == x.arn) = true
    · rw [if_pos hx, if_pos hx, ih]
    · rw [if_neg hx, if_neg hx, ih]

/-- C10 (amended): importHistory is atomic on error — a parse failure, a
missing/non-array roles field, or any imported entry failing the ARN
pattern throws and leaves storage unchanged; when every imported entry is
valid, the stored history is exactly the merge keeping every imported
entry and appending each current entry whose ARN is not already present
(mergeByArn), stably sorted by lastUsed descending and trimmed to
maxItems — so duplicates inside the import itself are preserved, as the
counterexample shows. -/
theorem importHistory_spec (maxI : Nat) (parsed : Except String ImportedHistory)
    (stored : Option RoleArnHistory) :
    (∀ e, parsed = Except.error e →
        importHistory maxI parsed stored = (Except.error e, stored)) ∧
    (∀ imp, parsed = Except.ok imp → imp.roles = none →
        exceptIsOk (importHistory maxI parsed stored).1 = false ∧
        (importHistory maxI parsed stored).2 = stored) ∧
    (∀ imp iroles r, parsed = Except.ok imp → imp.roles = some iroles → r ∈ iroles →
        (r.arn = "" ∨ roleArnTest r.arn.data = false) →
        exceptIsOk (importHistory maxI parsed stored).1 = false ∧
        (importHistory maxI parsed stored).2 = stored) ∧
    (∀ imp iroles, parsed = Except.ok imp → imp.roles = some iroles →
        (∀ r ∈ iroles, ¬ (r.arn = "" ∨ roleArnTest r.arn.data = false)) →
        exceptIsOk (importHistory maxI parsed stored).1 = true ∧
        ((importHistory maxI parsed stored).2 =
          some ⟨((mergeByArn iroles (getHistory maxI stored).roles).insertionSort
            lastUsedDesc).take maxI, maxI⟩) ∧
        ∀ h', (importHistory maxI parsed stored).2 = some h' →
          h'.maxItems = maxI ∧
          h'.roles.length ≤ maxI ∧
          List.Pairwise (fun a b => b.lastUsed ≤ a.lastUsed) h'.roles ∧
          ∀ r ∈ h'.roles, r ∈ iroles ∨ r ∈ (getHistory maxI stored).roles) := by
  refine ⟨?_, ?_, ?_, ?_⟩
  · intro e he
    subst he
    rfl
  · intro imp hp hr
    subst hp
    simp only [importHistory, hr]
    constructor <;> trivial
  · intro imp iroles r hp hr hmem hbad
    subst hp
    have hany : (iroles.any fun r => r.arn == "" || roleArnTest r.arn.data = false) = true := by
      rw [List.any_eq_true]
      refine ⟨r, hmem, ?_⟩
      simp only [Bool.or_eq_true, beq_iff_eq, decide_eq_true_eq]
      exact hbad
    simp only [importHistory, hr]
    rw [if_pos hany]
    constructor <;> trivial
  · intro imp iroles hp hr hgood
    subst hp
    have hany : (iroles.any fun r => r.arn == "" || roleArnTest r.arn.data = false) = false := by
      rw [List.any_eq_false]
      intro r hmem
      have hg := hgood r hmem
      simp only [Bool.or_eq_true, beq_iff_eq, decide_eq_true_eq]
      exact hg
    have hcond : ¬ ((iroles.any fun r => r.arn == "" || roleArnTest r.arn.data = false)
        = true) := by
      rw [hany]
      exact Bool.false_ne_true
    have hrun : importHistory maxI (Except.ok imp) stored =
        (Except.ok (), some ⟨(((getHistory maxI stored).roles.foldl
            (fun acc cr => if acc.any (fun r => r.arn == cr.arn) then acc else acc ++ [cr])
            iroles).insertionSort lastUsedDesc).take maxI, maxI⟩) := by
      simp only [importHistory, hr]
      rw [if_neg hcond]
    rw [hrun]
    refine ⟨rfl, ?_, ?_⟩
    · rw [mergeFold_eq_mergeByArn]
    intro h' hh'
    simp only [Option.some.injEq] at hh'
    subst hh'
    refine ⟨rfl, ?_, ?_, ?_⟩
    · simp only [List.length_take]
      omega
    · have hsorted := List.sorted_insertionSort lastUsedDesc
        ((getHistory maxI stored).roles.foldl
          (fun acc cr => if acc.any (fun r => r.arn == cr.arn) then acc else acc ++ [cr])
          iroles)
      exact List.Pairwise.sublist (List.take_sublist maxI _) hsorted
    · intro r hmem
      have h1 := List.mem_of_mem_take hmem
      have h2 := (List.perm_insertionSort lastUsedDesc _).mem_iff.mp h1
      exact mem_mergeFold _ _ _ h2

/-- Witness for C10 at concrete inputs (invalid entry rejected with
storage unchanged, fully valid import accepted). -/
theorem importHistory_spec_witness :
    (exceptIsOk (importHistory 10 (Except.ok ⟨some [⟨"not-an-arn", "n", "a", 1, 1⟩]⟩)
        (some ⟨[⟨"arn:aws:iam::123456789012:role/Other", "Other", "123456789012", 1, 1⟩],
          10⟩)).1 = false) ∧
    ((importHistory 10 (Except.ok ⟨some [⟨"not-an-arn", "n", "a", 1, 1⟩]⟩)
        (some ⟨[⟨"arn:aws:iam::123456789012:role/Other", "Other", "123456789012", 1, 1⟩],
          10⟩)).2 =
      some ⟨[⟨"arn:aws:iam::123456789012:role/Other", "Other", "123456789012", 1, 1⟩],
        10⟩) ∧
    (exceptIsOk (importHistory 10 (Except.ok ⟨some
        [⟨"arn:aws:iam::123456789012:role/MyRole", "MyRole", "123456789012", 4, 1⟩]⟩)
        none).1 = true) ∧
    ((importHistory 10 (Except.ok ⟨some
        [⟨"arn:aws:iam::123456789012:role/MyRole", "MyRole", "123456789012", 4, 1⟩]⟩)
        none).2 =
      some ⟨[⟨"arn:aws:iam::123456789012:role/MyRole", "MyRole", "123456789012", 4, 1⟩],
        10⟩) := by
  have h1 := (importHistory_spec 10 (Except.ok ⟨some [⟨"not-an-arn", "n", "a", 1, 1⟩]⟩)
    (some ⟨[⟨"arn:aws:iam::123456789012:role/Other", "Other", "123456789012", 1, 1⟩],
      10⟩)).2.2.1 ⟨some [⟨"not-an-arn", "n", "a", 1, 1⟩]⟩ [⟨"not-an-arn", "n", "a", 1, 1⟩]
    ⟨"not-an-arn", "n", "a", 1, 1⟩ rfl rfl (List.mem_singleton.mpr rfl)
    (Or.inr (by decide))
  have h2 := (importHistory_spec 10 (Except.ok ⟨some
    [⟨"arn:aws:iam::123456789012:role/MyRole", "MyRole", "123456789012", 4, 1⟩]⟩)
    none).2.2.2 ⟨some [⟨"arn:aws:iam::123456789012:role/MyRole", "MyRole", "123456789012", 4, 1⟩]⟩
    [⟨"arn:aws:iam::123456789012:role/MyRole", "MyRole", "123456789012", 4, 1⟩]
    rfl rfl (by decide)
  exact ⟨h1.1, h1.2, h2.1, h2.2.1.trans (by decide)⟩

/-! ## PKCE challenge (src utils: generateCodeChallenge =
base64url(SHA-256(utf8(verifier)))).  SHA-256 is embedded in full
(FIPS 180-4) over Nat with explicit mod 2^32 arithmetic. -/

/-- TextEncoder#encode: UTF-8 bytes of one character. -/
def utf8EncodeChar (c : Char) : List Nat :=
  let n := c.toNat
  if n < 128 then [n]
  else if n < 2048 then [192 + n / 64, 128 + n % 64]
  else if n < 65536 then [224 + n / 4096, 128 + n / 64 % 64, 128 + n % 64]
  else [240 + n / 262144, 128 + n / 4096 % 64, 128 + n / 64 % 64, 128 + n % 64]

/-- TextEncoder#encode over a whole string. -/
def utf8Encode (s : String) : List Nat :=
  (s.data.map utf8EncodeChar).flatten

def add32 (a b : Nat) : Nat := (a + b) % 4294967296

def rotr32 (n x : Nat) : Nat := ((x >>> n) ||| (x <<< (32 - n))) % 4294967296

def bigSigma0 (x : Nat) : Nat := (rotr32 2 x ^^^ rotr32 13 x) ^^^ rotr32 22 x

def bigSigma1 (x : Nat) : Nat := (rotr32 6 x ^^^ rotr32 11 x) ^^^ rotr32 25 x

def smallSigma0 (x : Nat) : Nat := (rotr32 7 x ^^^ rotr32 18 x) ^^^ (x >>> 3)

def smallSigma1 (x : Nat) : Nat := (rotr32 17 x ^^^ rotr32 19 x) ^^^ (x >>> 10)

def chFn (e f g : Nat) : Nat := (e &&& f) ^^^ ((e ^^^ 4294967295) &&& g)

def majFn (a b c : Nat) : Nat := ((a &&& b) ^^^ (a &&& c)) ^^^ (b &&& c)

/-- The 64 SHA-256 round constants (FIPS 180-4, decimal form). -/
def sha256K : List Nat :=
  [1116352408, 1899447441, 3049323471, 3921009573, 961987163, 1508970993,
   2453635748, 2870763221, 3624381080, 310598401, 607225278, 1426881987,
   1925078388, 2162078206, 2614888103, 3248222580, 3835390401, 4022224774,
   264347078, 604807628, 770255983, 1249150122, 1555081692, 1996064986,
   2554220882, 2821834349, 2952996808, 3210313671, 3336571891, 3584528711,
   113926993, 338241895, 666307205, 773529912, 1294757372, 1396182291,
   1695183700, 1986661051, 2177026350, 2456956037, 2730485921, 2820302411,
   3259730800, 3345764771, 3516065817, 3600352804, 4094571909, 275423344,
   430227734, 506948616, 659060556, 883997877, 958139571, 1322822218,
   1537002063, 1747873779, 1955562222, 2024104815, 2227730452, 2361852424,
   2428436474, 2756734187, 3204031479, 3329325298]

/-- The eight 32-bit words of the hash state. -/
structure Hash8 where
  h0 : Nat
  h1 : Nat
  h2 : Nat
  h3 : Nat
  h4 : Nat
  h5 : Nat
  h6 : Nat
  h7 : Nat
deriving Repr, DecidableEq

def sha256Init : Hash8 :=
  ⟨1779033703, 3144134277, 1013904242, 2773480762,
   1359893119, 2600822924, 528734635, 1541459225⟩

/-- Big-endian 32-bit words from bytes. -/
def bytesToWords : List Nat → List Nat
  | b1 :: b2 :: b3 :: b4 :: rest =>
    (b1 % 256 * 16777216 + b2 % 256 * 65536 + b3 % 256 * 256 + b4 % 256) ::
      bytesToWords rest
  | _ => []

/-- Extend 16 words to the 64-entry message schedule. -/
def msgSchedule (ws : List Nat) : Array Nat :=
  (List.range 48).foldl
    (fun w i =>
      w.push (add32 (add32 (smallSigma1 (w.getD (i + 14) 0)) (w.getD (i + 9) 0))
        (add32 (smallSigma0 (w.getD (i + 1) 0)) (w.getD i 0))))
    ws.toArray

/-- One SHA-256 round. -/
def sha256Round (w : Array Nat) (s : Hash8) (i : Nat) : Hash8 :=
  let t1 := add32 s.h7 (add32 (bigSigma1 s.h4)
    (add32 (chFn s.h4 s.h5 s.h6) (add32 (sha256K.getD i 0) (w.getD i 0))))
  let t2 := add32 (bigSigma0 s.h0) (majFn s.h0 s.h1 s.h2)
  ⟨add32 t1 t2, s.h0, s.h1, s.h2, add32 s.h3 t1, s.h4, s.h5, s.h6⟩

/-- Compress one 64-byte block into the running state. -/
def sha256Compress (H : Hash8) (block : List Nat) : Hash8 :=
  let w := msgSchedule (bytesToWords block)
  let s := (List.range 64).foldl (sha256Round w) H
  ⟨add32 H.h0 s.h0, add32 H.h1 s.h1, add32 H.h2 s.h2, add32 H.h3 s.h3,
   add32 H.h4 s.h4, add32 H.h5 s.h5, add32 H.h6 s.h6, add32 H.h7 s.h7⟩

/-- SHA-256 padding: 0x80, zeros to 56 mod 64, 64-bit big-endian length. -/
def sha256Pad (msg : List Nat) : List Nat :=
  let L := msg.length
  let k := (120 - (L + 1) % 64) % 64
  let bitLen := L * 8
  msg ++ [128] ++ List.replicate k 0 ++
    [bitLen / 72057594037927936 % 256, bitLen / 281474976710656 % 256,
     bitLen / 1099511627776 % 256, bitLen / 4294967296 % 256,
     bitLen / 16777216 % 256, bitLen / 65536 % 256, bitLen / 256 % 256, bitLen % 256]

/-- Fold the compression over all 64-byte blocks. -/
def sha256Blocks (l : List Nat) (H : Hash8) : Hash8 :=
  if h : l = [] then H
  else sha256Blocks (l.drop 64) (sha256Compress H (l.take 64))
termination_by l.length
decreasing_by
  rcases l with _ | ⟨x, xs⟩
  · exact absurd rfl h
  · simp [List.length_drop]
    omega

/-- Big-endian bytes of one 32-bit word. -/
def wordBytes (x : Nat) : List Nat :=
  [x / 16777216 % 256, x / 65536 % 256, x / 256 % 256, x % 256]

/-- The 32 digest bytes of a final state. -/
def digestBytes (H : Hash8) : List Nat :=
  wordBytes H.h0 ++ wordBytes H.h1 ++ wordBytes H.h2 ++ wordBytes H.h3 ++
  wordBytes H.h4 ++ wordBytes H.h5 ++ wordBytes H.h6 ++ wordBytes H.h7

/-- SHA-256 of a byte sequence. -/
def sha256 (msg : List Nat) : List Nat :=
  digestBytes (sha256Blocks (sha256Pad msg) sha256Init)

/-- The base64 alphabet used by btoa. -/
def base64Table : List Char :=
  "ABCDEFGHIJKLMNOPQRSTUVWXYZabcdefghijklmnopqrstuvwxyz0123456789+/".data

def b64Char (n : Nat) : Char := base64Table.getD n 'A'

/-- btoa: standard base64 with = padding. -/
def base64Encode : List Nat → List Char
  | [] => []
  | [b1] => [b64Char (b1 / 4), b64Char (b1 % 4 * 16), '=', '=']
  | [b1, b2] => [b64Char (b1 / 4), b64Char (b1 % 4 * 16 + b2 / 16), b64Char (b2 % 16 * 4), '=']
  | b1 :: b2 :: b3 :: rest =>
    b64Char (b1 / 4) :: b64Char (b1 % 4 * 16 + b2 / 16) ::
      b64Char (b2 % 16 * 4 + b3 / 64) :: b64Char (b3 % 64) :: base64Encode rest

/-- The post-processing chain .replace(+,-).replace(/,_).replace(=,''). -/
def replChar (c : Char) : Char :=
  if c = '+' then '-' else if c = '/' then '_' else c

def base64UrlOfBytes (bytes : List Nat) : List Char :=
  ((base64Encode bytes).map replChar).filter (fun c => c != '=')

/-- pkceUtils.generateCodeChallenge: SHA-256 of the UTF-8 verifier,
base64url-encoded without padding. -/
def generateCodeChallenge (v : String) : String :=
  String.mk (base64UrlOfBytes (sha256 (utf8Encode v)))

/-- Helper: getD yields the default or a list element. -/
theorem getD_mem_cons (l : List Char) (n : Nat) (d : Char) : l.getD n d ∈ d :: l := by
  induction l generalizing n with
  | nil => simp [List.getD]
  | cons x xs ih =>
    cases n with
    | zero => simp
    | succ m =>
      rw [List.getD_cons_succ]
      rcases List.mem_cons.mp (ih m) with h | h
      · rw [h]
        exact List.mem_cons_self d (x :: xs)
      · exact List.mem_cons_of_mem d (List.mem_cons_of_mem x h)

theorem b64Char_ne_eq (n : Nat) : b64Char n ≠ '=' := by
  have hmem : b64Char n ∈ 'A' :: base64Table := getD_mem_cons base64Table n 'A'
  have hall : ∀ c ∈ 'A' :: base64Table, c ≠ '=' := by decide
  exact hall _ hmem

theorem replChar_ne_plus (c : Char) : replChar c ≠ '+' := by
  unfold replChar
  split_ifs with h1 h2
  · decide
  · decide
  · exact h1

theorem replChar_ne_slash (c : Char) : replChar c ≠ '/' := by
  unfold replChar
  split_ifs with h1 h2
  · decide
  · decide
  · exact h2

theorem replChar_eq_eq {c : Char} (h : replChar c = '=') : c = '=' := by
  by_cases h1 : c = '+'
  · rw [replChar, if_pos h1] at h
    exact absurd h (by decide)
  · by_cases h2 : c = '/'
    · rw [replChar, if_neg h1, if_pos h2] at h
      exact absurd h (by decide)
    · rwa [replChar, if_neg h1, if_neg h2] at h

@[simp]
theorem replB64_keep (n : Nat) : (replChar (b64Char n) != '=') = true := by
  simp only [bne_iff_ne, ne_eq]
  intro h
  exact b64Char_ne_eq n (replChar_eq_eq h)

@[simp]
theorem replPad_drop : (replChar '=' != '=') = false := by decide

/-- Helper: the base64url encoding of any 32-byte digest state has
exactly 43 characters. -/
theorem base64Url_digest_length (H : Hash8) :
    (base64UrlOfBytes (digestBytes H)).length = 43 := by
  simp only [base64UrlOfBytes, digestBytes, wordBytes, List.cons_append, List.nil_append]
  simp only [base64Encode, List.map_cons, List.map_nil, List.filter_cons, List.filter_nil,
    replB64_keep, replPad_drop, if_true, if_false]
  rfl

/-- Helper: base64url output never contains '+', '/' or '='. -/
theorem mem_base64UrlOfBytes (l : List Nat) (c : Char) (h : c ∈ base64UrlOfBytes l) :
    c ≠ '+' ∧ c ≠ '/' ∧ c ≠ '=' := by
  simp only [base64UrlOfBytes] at h
  have h1 := List.mem_filter.mp h
  have hne : c ≠ '=' := by
    have := h1.2
    simpa [bne_iff_ne] using this
  rcases List.mem_map.mp h1.1 with ⟨c0, _, hc0⟩
  subst hc0
  exact ⟨replChar_ne_plus c0, replChar_ne_slash c0, hne⟩

/-- C5: generateCodeChallenge is deterministic and always returns a
43-character base64url string containing no '+', '/' or '='. -/
theorem generateCodeChallenge_spec (v : String) :
    generateCodeChallenge v = generateCodeChallenge v ∧
    (generateCodeChallenge v).length = 43 ∧
    ∀ c ∈ (generateCodeChallenge v).data, c ≠ '+' ∧ c ≠ '/' ∧ c ≠ '=' := by
  refine ⟨rfl, ?_, ?_⟩
  · show (base64UrlOfBytes (sha256 (utf8Encode v))).length = 43
    simp only [sha256]
    exact base64Url_digest_length _
  · intro c hc
    exact mem_base64UrlOfBytes _ c hc

end AwsGithubLogin
